import Mathlib

/-!
Verification of the sonnenbankerl backend's exposure/weather core.

Shallow embedding conventions:
* wall-clock instants and grid ticks are `Nat` seconds since the epoch (UTC);
* Python `datetime` field accesses become arithmetic on seconds
  (`dt.minute = (t / 60) % 60`, `replace(minute=0, second=0) = t / 3600 * 3600`);
* latitude/longitude are `Int` micro-degrees (a coordinate x degrees is
  embedded as x * 10^6; the core's only arithmetic on coordinates is
  `int(lat * 10)`, which on micro-degrees is truncating division by 10^5);
* database reads that can raise (`get_bench_by_id`, `get_current_exposure`,
  the batch status query) are `Except Unit`-valued functions of the store;
  the forecast table (`weather_cache`) is a plain list of rows, since its
  reader `get_cloud_cover_at_time` catches its own storage errors and turns
  them into `None`, i.e. into the same value as "no row";
* the `while` loop of `get_next_sun_change_with_weather` is translated to a
  structural recursion over the precomputed list of hourly check times.
-/

/-- `round_to_10min` from `app/services/exposure.py`:
`dt.replace(second=0, microsecond=0, minute=(dt.minute // 10) * 10)`,
i.e. floor to the 10-minute (600 s) grid. -/
def round_to_10min (t : Nat) : Nat := t / 600 * 600

/-- `round_to_hour` from `app/services/exposure.py`: add an hour when
`dt.minute >= 30`, then zero out minutes and seconds. -/
def round_to_hour (t : Nat) : Nat :=
  (if (t / 60) % 60 ≥ 30 then t + 3600 else t) / 3600 * 3600

/-- `_get_region_id` from `app/services/weather_openmeteo.py`:
`f"graz_{int(lat * 10)}_{int(lon * 10)}"`.  The constant `"graz_"` prefix is
dropped; a region is identified by the pair of truncated tenth-degrees.
On micro-degree coordinates, Python's `int(x * 10)` (truncation toward
zero) is `Int.tdiv x 100000`. -/
def get_region_id (lat lon : Int) : Int × Int :=
  (Int.tdiv lat 100000, Int.tdiv lon 100000)

/-- A row of the `weather_cache` table (the columns read by the service;
`latitude`/`longitude` are stored by the refresher but never read back).
`cloud_cover_percent` is nullable: `_parse_forecast` yields `None` when the
provider's `cloudcover` array is shorter than its `time` array, and
`_store_forecast_in_db` stores that `None` as SQL NULL. -/
structure WeatherRow where
  region_id : Int × Int
  forecast_time : Nat
  cloud_cover_percent : Option Int
  fetched_at : Nat
deriving DecidableEq

/-- The fields of a `benches` row that the exposure service reads
(coordinates in micro-degrees). -/
structure Bench where
  lat : Int
  lon : Int
deriving DecidableEq

/-- The store state visible to the exposure service: bench catalog,
precomputed geometric exposure, and the forecast cache.  `Except Unit`
models queries that can raise a storage error; for `weather_cache`,
`.error` is a storage failure on reading the table, which
`get_cloud_cover_at_time` catches itself and turns into `None`. -/
structure Db where
  benches : Int → Except Unit (Option Bench)
  exposure : Int → Nat → Except Unit (Option Bool)
  weather_cache : Except Unit (List WeatherRow)

/-- `OPENMETEO_CACHE_TTL` from `app/services/weather_openmeteo.py`. -/
def OPENMETEO_CACHE_TTL : Nat := 300

/-- `CLOUD_COVER_THRESHOLD` from `app/services/weather_openmeteo.py`. -/
def CLOUD_COVER_THRESHOLD : Int := 20

/-- `_is_cache_valid` from `app/services/weather_openmeteo.py`:
`(now - cached_at).total_seconds() < OPENMETEO_CACHE_TTL`. -/
def openmeteo_cache_valid (now cached_at : Nat) : Bool :=
  decide ((now : Int) - (cached_at : Int) < (OPENMETEO_CACHE_TTL : Int))

/-- `ORDER BY fetched_at DESC LIMIT 1` over a set of rows (tie order among
equal `fetched_at` values is unspecified in SQL; this picks the later
element of the list on ties). -/
def latestFetched : List WeatherRow → Option WeatherRow
  | [] => none
  | r :: rs =>
    match latestFetched rs with
    | none => some r
    | some m => if m.fetched_at < r.fetched_at then some r else some m

/-- The rows matched by the `WHERE region_id = $1 AND forecast_time = $2`
clause of `get_cloud_cover_at_time`. -/
def weather_matches (rows : List WeatherRow) (region : Int × Int)
    (hour : Nat) : List WeatherRow :=
  rows.filter
    (fun r => decide (r.region_id = region) && decide (r.forecast_time = hour))

/-- `get_cloud_cover_at_time` from `app/services/weather_openmeteo.py`:
floor the target to the hour, select the matching row with the latest
`fetched_at`, compute (and ignore) the cache-validity flag, and return the
row's stored (nullable) cloud cover; `None` when no row matches, and also
`None` when the storage read raises (the function's own `except` handler,
lines 198-200, logs and returns `None`). -/
def get_cloud_cover_at_time (db : Db) (now : Nat) (lat lon : Int)
    (target_time : Nat) : Option Int :=
  let region_id := get_region_id lat lon
  let target_hour := target_time / 3600 * 3600
  match db.weather_cache with
  | .error _ => none
  | .ok rows =>
    match latestFetched (weather_matches rows region_id target_hour) with
    | some row =>
      let _cache_valid := openmeteo_cache_valid now row.fetched_at
      row.cloud_cover_percent
    | none => none

/-- `is_sunny_at_time` from `app/services/weather_openmeteo.py`. -/
def is_sunny_at_time (db : Db) (now : Nat) (lat lon : Int)
    (target_time : Nat) : Option Bool :=
  match get_cloud_cover_at_time db now lat lon target_time with
  | none => none
  | some c => some (decide (c < CLOUD_COVER_THRESHOLD))

example : round_to_10min 2700 = 2400 := by decide
example : round_to_hour 2700 = 3600 := by decide
example : round_to_hour 1500 = 0 := by decide
example : get_region_id 47100000 15400000 = (471, 154) := by decide

/-- The check times visited by the `while check_time < search_end` loop of
`get_next_sun_change_with_weather` when it starts at `start` and advances
by one hour per iteration: `start + 3600 * k` for every `k` with
`start + 3600 * k < fin`. -/
def hourlyTicks (start fin : Nat) : List Nat :=
  (List.range ((fin - start + 3599) / 3600)).map (fun k => start + 3600 * k)

/-- The loop body of `get_next_sun_change_with_weather`
(`app/services/exposure.py`, lines 139-162) together with the
post-loop candidate fallback (lines 164-167), as a recursion over the
list of hourly check times.  `.ok (some t)` is the `return check_time`
path, `.ok none` after exhausting the ticks with no candidates is the
final `return None`, and `.error` propagates a `get_current_exposure`
storage failure to the caller. -/
def scanTicks (db : Db) (now : Nat) (bench_id : Int) (lat lon : Int)
    (target_status : Bool) :
    List Nat → List Nat → Except Unit (Option Nat)
  | [], candidate_times => .ok candidate_times.head?
  | check_time :: rest, candidate_times => do
    match ← db.exposure bench_id check_time with
    | none => scanTicks db now bench_id lat lon target_status rest candidate_times
    | some clear_sky_exposed =>
      let is_weather_sunny := is_sunny_at_time db now lat lon check_time
      let is_effectively_sunny := is_weather_sunny == some true && clear_sky_exposed
      if target_status then
        if is_effectively_sunny then pure (some check_time)
        else if is_weather_sunny == (none : Option Bool) && !clear_sky_exposed then
          scanTicks db now bench_id lat lon target_status rest
            (candidate_times ++ [check_time])
        else scanTicks db now bench_id lat lon target_status rest candidate_times
      else
        if !is_effectively_sunny then pure (some check_time)
        else if is_weather_sunny == (none : Option Bool) && clear_sky_exposed then
          scanTicks db now bench_id lat lon target_status rest
            (candidate_times ++ [check_time])
        else scanTicks db now bench_id lat lon target_status rest candidate_times

/-- `get_next_sun_change_with_weather` from `app/services/exposure.py`:
scan forward hour-by-hour from the hour after `current_time` (floored to
the hour) up to `now + 48h`, looking for the first tick whose combined
status differs from `current_is_sunny`; candidates recorded at
missing-weather ticks are used only when the loop finishes. -/
def get_next_sun_change_with_weather (db : Db) (now : Nat) (bench_id : Int)
    (lat lon : Int) (current_time : Nat) (current_is_sunny : Bool) :
    Except Unit (Option Nat) :=
  let search_end := now + 48 * 3600
  let target_status := !current_is_sunny
  let rounded_time := current_time / 3600 * 3600
  scanTicks db now bench_id lat lon target_status
    (hourlyTicks (rounded_time + 3600) search_end) []

/-- The `(status, sun_until, remaining_minutes)` triple produced by the
exposure service. -/
abbrev SunResult := String × Option Nat × Option Int

/-- The `("unknown", None, None)` triple. -/
def unknownResult : SunResult := ("unknown", none, none)

/-- The body of the `try` block of `get_bench_sun_status`
(`app/services/exposure.py`, lines 189-225), with the exposure-lookup
tick (`rounded_time`) as an explicit parameter. -/
def get_bench_sun_status_attempt_at (db : Db) (rounded_time now : Nat)
    (bench_id : Int) : Except Unit SunResult := do
  match ← db.benches bench_id with
  | none => pure unknownResult
  | some bench =>
    match ← db.exposure bench_id rounded_time with
    | none => pure unknownResult
    | some clear_sky_exposed =>
      let is_weather_sunny := is_sunny_at_time db now bench.lat bench.lon rounded_time
      let is_effectively_sunny := is_weather_sunny == some true && clear_sky_exposed
      let effective_status := if is_effectively_sunny then "sunny" else "shady"
      match ← get_next_sun_change_with_weather db now bench_id bench.lat bench.lon
          rounded_time is_effectively_sunny with
      | some next_change =>
        let remaining_minutes := Int.tdiv ((next_change : Int) - (now : Int)) 60
        if remaining_minutes < 0 then pure (effective_status, some next_change, none)
        else pure (effective_status, some next_change, some remaining_minutes)
      | none => pure (effective_status, none, none)

/-- The `try` block of `get_bench_sun_status` with the tick computed as in
the source: `rounded_time = round_to_hour(now)`. -/
def get_bench_sun_status_attempt (db : Db) (now : Nat) (bench_id : Int) :
    Except Unit SunResult :=
  get_bench_sun_status_attempt_at db (round_to_hour now) now bench_id

/-- `get_bench_sun_status` from `app/services/exposure.py`: the `try`
block plus the `except` handler returning `("unknown", None, None)`.
`skip_weather_check` is accepted and, as in the source, never read. -/
def get_bench_sun_status (db : Db) (now : Nat) (bench_id : Int)
    (skip_weather_check : Bool) : SunResult :=
  match get_bench_sun_status_attempt db now bench_id with
  | .ok r => r
  | .error _ => unknownResult

/-- Variant of `get_bench_sun_status` with the exposure-lookup tick as an
explicit parameter (used to state which tick the service queries). -/
def get_bench_sun_status_at_tick (db : Db) (tick now : Nat) (bench_id : Int)
    (skip_weather_check : Bool) : SunResult :=
  match get_bench_sun_status_attempt_at db tick now bench_id with
  | .ok r => r
  | .error _ => unknownResult

/-- `get_bench_status_batch` from `app/db/queries.py`: one SQL query that,
for each requested id in order, inner-joins the bench catalog (missing
benches produce no row) and left-joins the exposure table at
`current_time`.  The query's `next_change_ts` column is never read by the
service and is omitted.  A storage failure anywhere fails the whole
query. -/
def get_bench_status_batch (db : Db) (current_time : Nat) :
    List Int → Except Unit (List (Int × Option Bool))
  | [] => pure []
  | bench_id :: rest => do
    match ← db.benches bench_id with
    | none => get_bench_status_batch db current_time rest
    | some _ =>
      let exposed ← db.exposure bench_id current_time
      let tail ← get_bench_status_batch db current_time rest
      pure ((bench_id, exposed) :: tail)

/-- The Python `dict` that `get_bench_sun_status_batch` builds, as an
insertion-ordered association list with unique keys. -/
abbrev ResultDict := List (Int × SunResult)

/-- `bench_id in result`. -/
def dictContains (d : ResultDict) (k : Int) : Bool := d.any (fun p => p.1 == k)

/-- `result[bench_id] = v`: overwrite in place, or append a new entry. -/
def dictSet (d : ResultDict) (k : Int) (v : SunResult) : ResultDict :=
  if dictContains d k then d.map (fun p => if p.1 == k then (k, v) else p)
  else d ++ [(k, v)]

/-- `result.get(bench_id)`. -/
def dictGet (d : ResultDict) (k : Int) : Option SunResult :=
  (d.find? (fun p => p.1 == k)).map (fun p => p.2)

/-- The `for row in batch_results` loop of `get_bench_sun_status_batch`
(`app/services/exposure.py`, lines 57-91). -/
def batch_rows_loop (db : Db) (now rounded_time : Nat) :
    List (Int × Option Bool) → ResultDict → Except Unit ResultDict
  | [], result => pure result
  | (bench_id, row_exposed) :: rest, result =>
    match row_exposed with
    | none =>
      batch_rows_loop db now rounded_time rest (dictSet result bench_id unknownResult)
    | some clear_sky_exposed =>
      (db.benches bench_id).bind fun benchOpt =>
        match benchOpt with
        | none =>
          batch_rows_loop db now rounded_time rest (dictSet result bench_id unknownResult)
        | some bench =>
          let is_weather_sunny := is_sunny_at_time db now bench.lat bench.lon rounded_time
          let is_effectively_sunny := is_weather_sunny == some true && clear_sky_exposed
          let effective_status := if is_effectively_sunny then "sunny" else "shady"
          (get_next_sun_change_with_weather db now bench_id bench.lat bench.lon
              rounded_time is_effectively_sunny).bind fun next_change? =>
            match next_change? with
            | some next_change =>
              let remaining_minutes := Int.tdiv ((next_change : Int) - (now : Int)) 60
              batch_rows_loop db now rounded_time rest
                (dictSet result bench_id
                  (effective_status, some next_change, some remaining_minutes))
            | none =>
              batch_rows_loop db now rounded_time rest
                (dictSet result bench_id (effective_status, none, none))

/-- The final `for bench_id in bench_ids: if bench_id not in result` loop
of `get_bench_sun_status_batch` (lines 93-95). -/
def batch_fill_missing (bench_ids : List Int) (result : ResultDict) : ResultDict :=
  bench_ids.foldl
    (fun acc bench_id =>
      if dictContains acc bench_id then acc
      else dictSet acc bench_id unknownResult)
    result

/-- The `try` block of `get_bench_sun_status_batch`
(`app/services/exposure.py`, lines 54-97). -/
def get_bench_sun_status_batch_attempt (db : Db) (now : Nat)
    (bench_ids : List Int) : Except Unit ResultDict := do
  let rounded_time := round_to_hour now
  let batch_results ← get_bench_status_batch db rounded_time bench_ids
  let result ← batch_rows_loop db now rounded_time batch_results []
  pure (batch_fill_missing bench_ids result)

/-- `get_bench_sun_status_batch` from `app/services/exposure.py`: the
`try` block plus the `except` handler, which re-assigns
`("unknown", None, None)` to every requested id (overwriting any results
computed before the failure, so the resulting dict maps each requested id
to unknown and nothing else).  `skip_weather_check` is accepted and, as
in the source, never read. -/
def get_bench_sun_status_batch (db : Db) (now : Nat) (bench_ids : List Int)
    (skip_weather_check : Bool) : ResultDict :=
  match get_bench_sun_status_batch_attempt db now bench_ids with
  | .ok r => r
  | .error _ =>
    bench_ids.foldl (fun acc bench_id => dictSet acc bench_id unknownResult) []

/-- `WeatherStatus` from `app/models/weather.py` (timestamps in epoch
seconds). -/
structure WeatherStatus where
  is_sunny : Bool
  sunshine_seconds : Int
  station_id : String
  station_name : String
  timestamp : Nat
  cached_at : Option Nat
  message : String
deriving DecidableEq

/-- The module-level cache of `app/services/weather.py`:
`_weather_cache` and `_cache_time`. -/
structure GateCache where
  weather_cache : Option WeatherStatus
  cache_time : Option Nat
deriving DecidableEq

/-- `_is_cache_valid` from `app/services/weather.py`: false when either
cache variable is `None`, otherwise `(now - _cache_time) < ttl` (the TTL
is `settings.weather_cache_ttl`, passed as a parameter). -/
def is_cache_valid_gate (s : GateCache) (now ttl : Nat) : Bool :=
  match s.weather_cache, s.cache_time with
  | some _, some t => decide ((now : Int) - (t : Int) < (ttl : Int))
  | _, _ => false

/-- `get_current_weather` from `app/services/weather.py`.  `fetch` is the
outcome `fetch_weather_from_api` would have (`.error` for a timeout,
non-2xx status, or parse failure).  Returns the `(status, cache_hit)`
pair (or the propagated error) together with the cache state after the
call.  In the cache-valid branch the cache is necessarily non-empty
(`_is_cache_valid` checks both variables for `None`); the unreachable
`none` sub-case is mapped to the error outcome. -/
def get_current_weather (s : GateCache) (now ttl : Nat)
    (fetch : Except Unit WeatherStatus) (force_refresh : Bool) :
    Except Unit (WeatherStatus × Bool) × GateCache :=
  if !force_refresh && is_cache_valid_gate s now ttl then
    match s.weather_cache with
    | some w => (.ok (w, true), s)
    | none => (.error (), s)
  else
    match fetch with
    | .ok status => (.ok (status, false),
        { weather_cache := some status, cache_time := some now })
    | .error e =>
      match s.weather_cache with
      | some w => (.ok (w, true), s)
      | none => (.error e, s)

/-- `is_sunny` from `app/services/weather.py`: `get_current_weather()`
with the default `force_refresh=False`, conservatively `false` on any
error. -/
def is_sunny_gate (s : GateCache) (now ttl : Nat)
    (fetch : Except Unit WeatherStatus) : Bool :=
  match (get_current_weather s now ttl fetch false).1 with
  | .ok (status, _) => status.is_sunny
  | .error _ => false

theorem except_ok_bind {α β : Type} (a : α) (f : α → Except Unit β) :
    (Except.ok a : Except Unit α) >>= f = f a := rfl

theorem except_bind_ok {α β : Type} (a : α) (f : α → Except Unit β) :
    Except.bind (Except.ok a) f = f a := rfl

/-- A store whose bench and exposure reads never raise. -/
def NoFailDb (db : Db) : Prop :=
  (∀ i, ∃ v, db.benches i = .ok v) ∧ ∀ i t, ∃ v, db.exposure i t = .ok v

theorem round_to_hour_mul_self (t : Nat) :
    round_to_hour t / 3600 * 3600 = round_to_hour t := by
  unfold round_to_hour
  split <;> omega

theorem lt_round_to_hour_add (t : Nat) : t < round_to_hour t + 3600 := by
  unfold round_to_hour
  split <;> omega

theorem round_to_hour_eq_floor_shifted (t : Nat) :
    round_to_hour t = (t + 1800) / 3600 * 3600 := by
  unfold round_to_hour
  split <;> omega

theorem mem_hourlyTicks {t start fin : Nat} :
    t ∈ hourlyTicks start fin ↔ ∃ k, t = start + 3600 * k ∧ t < fin := by
  simp only [hourlyTicks, List.mem_map, List.mem_range]
  constructor
  · rintro ⟨k, hk, rfl⟩
    exact ⟨k, rfl, by omega⟩
  · rintro ⟨k, rfl, hlt⟩
    exact ⟨k, by omega, rfl⟩

theorem start_le_of_mem_hourlyTicks {t start fin : Nat}
    (h : t ∈ hourlyTicks start fin) : start ≤ t := by
  obtain ⟨k, rfl, -⟩ := mem_hourlyTicks.mp h
  omega

theorem scanTicks_nil (db : Db) (now : Nat) (bench_id : Int) (lat lon : Int)
    (target_status : Bool) (cands : List Nat) :
    scanTicks db now bench_id lat lon target_status [] cands = .ok cands.head? :=
  rfl

theorem scanTicks_cons_error {db : Db} {now : Nat} {bench_id : Int}
    {lat lon : Int} {target_status : Bool} {check : Nat} {rest cands : List Nat}
    {e : Unit} (he : db.exposure bench_id check = .error e) :
    scanTicks db now bench_id lat lon target_status (check :: rest) cands =
      .error e := by
  simp only [scanTicks, he]
  rfl

theorem scanTicks_cons_skip {db : Db} {now : Nat} {bench_id : Int}
    {lat lon : Int} {target_status : Bool} {check : Nat} {rest cands : List Nat}
    (he : db.exposure bench_id check = .ok none) :
    scanTicks db now bench_id lat lon target_status (check :: rest) cands =
      scanTicks db now bench_id lat lon target_status rest cands := by
  simp only [scanTicks, he]
  rfl

theorem scanTicks_cons_exposed {db : Db} {now : Nat} {bench_id : Int}
    {lat lon : Int} {target_status : Bool} {check : Nat} {rest cands : List Nat}
    {b : Bool} (he : db.exposure bench_id check = .ok (some b)) :
    scanTicks db now bench_id lat lon target_status (check :: rest) cands =
      (if target_status then
        if is_sunny_at_time db now lat lon check == some true && b then
          .ok (some check)
        else if is_sunny_at_time db now lat lon check == (none : Option Bool) && !b then
          scanTicks db now bench_id lat lon target_status rest (cands ++ [check])
        else scanTicks db now bench_id lat lon target_status rest cands
      else
        if !(is_sunny_at_time db now lat lon check == some true && b) then
          .ok (some check)
        else if is_sunny_at_time db now lat lon check == (none : Option Bool) && b then
          scanTicks db now bench_id lat lon target_status rest (cands ++ [check])
        else scanTicks db now bench_id lat lon target_status rest cands) := by
  simp only [scanTicks, he]
  rfl

theorem scanTicks_ok {db : Db} (now : Nat) (bench_id : Int) (lat lon : Int)
    (target_status : Bool)
    (hex : ∀ i t, ∃ v, db.exposure i t = .ok v) :
    ∀ (ticks cands : List Nat),
      ∃ v, scanTicks db now bench_id lat lon target_status ticks cands = .ok v := by
  intro ticks
  induction ticks with
  | nil => exact fun cands => ⟨cands.head?, rfl⟩
  | cons check rest ih =>
    intro cands
    obtain ⟨e, he⟩ := hex bench_id check
    cases e with
    | none => rw [scanTicks_cons_skip he]; exact ih cands
    | some b =>
      rw [scanTicks_cons_exposed he]
      split
      · split
        · exact ⟨_, rfl⟩
        · split
          · exact ih _
          · exact ih _
      · split
        · exact ⟨_, rfl⟩
        · split
          · exact ih _
          · exact ih _

theorem scanTicks_result_mem {db : Db} {now : Nat} {bench_id : Int}
    {lat lon : Int} {target_status : Bool} :
    ∀ {ticks cands : List Nat} {t : Nat},
      scanTicks db now bench_id lat lon target_status ticks cands = .ok (some t) →
      t ∈ ticks ∨ t ∈ cands := by
  intro ticks
  induction ticks with
  | nil =>
    intro cands t h
    rw [scanTicks_nil] at h
    cases cands with
    | nil => simp at h
    | cons c cs =>
      simp only [List.head?, Except.ok.injEq, Option.some.injEq] at h
      exact Or.inr (h ▸ List.mem_cons_self c cs)
  | cons check rest ih =>
    intro cands t h
    cases he : db.exposure bench_id check with
    | error e => rw [scanTicks_cons_error he] at h; cases h
    | ok eo =>
      cases eo with
      | none =>
        rw [scanTicks_cons_skip he] at h
        rcases ih h with h' | h'
        · exact Or.inl (List.mem_cons_of_mem _ h')
        · exact Or.inr h'
      | some b =>
        rw [scanTicks_cons_exposed he] at h
        have hstep : ∀ {cands' : List Nat},
            scanTicks db now bench_id lat lon target_status rest cands' = .ok (some t) →
            cands' = cands ++ [check] ∨ cands' = cands →
            t ∈ check :: rest ∨ t ∈ cands := by
          intro cands' h' hc
          rcases ih h' with hm | hm
          · exact Or.inl (List.mem_cons_of_mem _ hm)
          · rcases hc with rfl | rfl
            · rcases List.mem_append.mp hm with hm' | hm'
              · exact Or.inr hm'
              · simp only [List.mem_singleton] at hm'
                exact Or.inl (hm' ▸ List.mem_cons_self _ _)
            · exact Or.inr hm
        split at h
        · split at h
          · cases h with
            | refl => exact Or.inl (List.mem_cons_self _ _)
          · split at h
            · exact hstep h (Or.inl rfl)
            · exact hstep h (Or.inr rfl)
        · split at h
          · cases h with
            | refl => exact Or.inl (List.mem_cons_self _ _)
          · split at h
            · exact hstep h (Or.inl rfl)
            · exact hstep h (Or.inr rfl)

theorem find?_of_not_contains {d : ResultDict} {k : Int}
    (h : dictContains d k = false) : d.find? (fun p => p.1 == k) = none := by
  induction d with
  | nil => rfl
  | cons p rest ih =>
    simp only [dictContains, List.any_cons, Bool.or_eq_false_iff] at h
    simp only [List.find?, h.1]
    exact ih (by simpa [dictContains] using h.2)

theorem find?_map_overwrite {d : ResultDict} {k : Int} {v : SunResult} :
    (d.map (fun p => if p.1 == k then (k, v) else p)).find? (fun p => p.1 == k) =
      if dictContains d k then some (k, v) else none := by
  induction d with
  | nil => rfl
  | cons p rest ih =>
    by_cases hpk : p.1 = k
    · have h1 : (p.1 == k) = true := by simpa using hpk
      rw [List.map_cons, if_pos h1,
        @List.find?_cons_of_pos _ (fun q => q.1 == k) (k, v) _ (by simp)]
      have h2 : dictContains (p :: rest) k = true := by
        simp [dictContains, h1]
      rw [h2, if_pos rfl]
    · have h1 : (p.1 == k) = false := by simpa using hpk
      rw [List.map_cons, if_neg (by simp [h1]),
        @List.find?_cons_of_neg _ (fun q => q.1 == k) p _ (by simp [hpk])]
      have h2 : dictContains (p :: rest) k = dictContains rest k := by
        simp [dictContains, h1]
      rw [h2]
      exact ih

theorem find?_map_overwrite_ne {d : ResultDict} {k k' : Int} {v : SunResult}
    (hne : k' ≠ k) :
    (d.map (fun p => if p.1 == k then (k, v) else p)).find? (fun p => p.1 == k') =
      d.find? (fun p => p.1 == k') := by
  induction d with
  | nil => rfl
  | cons p rest ih =>
    by_cases hpk : p.1 = k
    · have h1 : (p.1 == k) = true := by simpa using hpk
      rw [List.map_cons, if_pos h1,
        @List.find?_cons_of_neg _ (fun q => q.1 == k') (k, v) _
          (by simp only [beq_iff_eq]; exact fun h => hne h.symm),
        @List.find?_cons_of_neg _ (fun q => q.1 == k') p _
          (by simp only [beq_iff_eq, hpk]; exact fun h => hne h.symm)]
      exact ih
    · have h1 : (p.1 == k) = false := by simpa using hpk
      rw [List.map_cons, if_neg (by simp [h1])]
      by_cases hp2 : p.1 = k'
      · rw [@List.find?_cons_of_pos _ (fun q => q.1 == k') p _ (by simpa using hp2),
          @List.find?_cons_of_pos _ (fun q => q.1 == k') p _ (by simpa using hp2)]
      · rw [@List.find?_cons_of_neg _ (fun q => q.1 == k') p _ (by simpa using hp2),
          @List.find?_cons_of_neg _ (fun q => q.1 == k') p _ (by simpa using hp2)]
        exact ih

theorem dictGet_dictSet_self (d : ResultDict) (k : Int) (v : SunResult) :
    dictGet (dictSet d k v) k = some v := by
  unfold dictSet
  split
  · rename_i h
    unfold dictGet
    rw [find?_map_overwrite, if_pos h]
    rfl
  · rename_i h
    have hnc : dictContains d k = false := by simpa using h
    unfold dictGet
    rw [List.find?_append, find?_of_not_contains hnc]
    simp [List.find?]

theorem dictGet_dictSet_ne {k' k : Int} (d : ResultDict) (v : SunResult)
    (hne : k' ≠ k) : dictGet (dictSet d k v) k' = dictGet d k' := by
  unfold dictSet
  split
  · unfold dictGet
    rw [find?_map_overwrite_ne hne]
  · unfold dictGet
    rw [List.find?_append]
    have hkk : ((k : Int) == k') = false := by
      simp only [beq_eq_false_iff_ne, ne_eq]
      exact fun h => hne h.symm
    have h2 : List.find? (fun p => p.1 == k') [((k : Int), v)] = none := by
      simp [List.find?, hkk]
    rw [h2]
    cases List.find? (fun p => p.1 == k') d <;> rfl

theorem dictContains_eq_isSome (d : ResultDict) (k : Int) :
    dictContains d k = (dictGet d k).isSome := by
  induction d with
  | nil => rfl
  | cons p rest ih =>
    by_cases hpk : p.1 = k
    · have h1 : (p.1 == k) = true := by simpa using hpk
      rw [show dictContains (p :: rest) k = true by simp [dictContains, h1]]
      unfold dictGet
      rw [@List.find?_cons_of_pos _ (fun q => q.1 == k) p rest h1]
      rfl
    · have h1 : (p.1 == k) = false := by simpa using hpk
      rw [show dictContains (p :: rest) k = dictContains rest k by
        simp [dictContains, h1]]
      unfold dictGet
      rw [@List.find?_cons_of_neg _ (fun q => q.1 == k) p rest (by simp [hpk])]
      exact ih

theorem dictGet_fill (ids : List Int) :
    ∀ (acc : ResultDict) (k : Int),
      dictGet (batch_fill_missing ids acc) k =
        match dictGet acc k with
        | some v => some v
        | none => if k ∈ ids then some unknownResult else none := by
  induction ids with
  | nil =>
    intro acc k
    cases h : dictGet acc k <;> simp [batch_fill_missing, h]
  | cons id rest ih =>
    intro acc k
    have hstep : batch_fill_missing (id :: rest) acc =
        batch_fill_missing rest
          (if dictContains acc id then acc else dictSet acc id unknownResult) := by
      simp [batch_fill_missing, List.foldl_cons]
    rw [hstep]
    by_cases hc : dictContains acc id = true
    · rw [if_pos hc, ih acc k]
      cases h : dictGet acc k with
      | some v => rfl
      | none =>
        by_cases hk : k = id
        · subst hk
          rw [dictContains_eq_isSome, h] at hc
          cases hc
        · simp [List.mem_cons, hk]
    · rw [if_neg hc, ih _ k]
      by_cases hk : k = id
      · subst hk
        have hg : dictGet acc k = none := by
          rw [dictContains_eq_isSome] at hc
          cases h : dictGet acc k with
          | some v => rw [h] at hc; cases hc rfl
          | none => rfl
        rw [hg, dictGet_dictSet_self]
        simp
      · rw [dictGet_dictSet_ne acc unknownResult hk]
        cases h : dictGet acc k with
        | some v => rfl
        | none => simp [List.mem_cons, hk]

theorem dictGet_foldl_unknown (ids : List Int) :
    ∀ (acc : ResultDict) (k : Int),
      dictGet (ids.foldl (fun a i => dictSet a i unknownResult) acc) k =
        if k ∈ ids then some unknownResult else dictGet acc k := by
  induction ids with
  | nil => intro acc k; simp
  | cons id rest ih =>
    intro acc k
    rw [List.foldl_cons, ih]
    by_cases hk : k ∈ rest
    · simp [hk, List.mem_cons]
    · by_cases hki : k = id
      · subst hki
        simp [hk, dictGet_dictSet_self, List.mem_cons]
      · rw [dictGet_dictSet_ne acc unknownResult hki]
        simp [hk, hki, List.mem_cons]

/-- The rows produced by the batch SQL query of `get_bench_status_batch`
for a given id list: ids whose bench is missing produce no row; the rest
produce `(id, exposure-at-tick)` in order. -/
inductive BatchRows (db : Db) (t : Nat) : List Int → List (Int × Option Bool) → Prop
  | nil : BatchRows db t [] []
  | skip {id ids rows} : db.benches id = .ok none →
      BatchRows db t ids rows → BatchRows db t (id :: ids) rows
  | cons {id ids rows b e} : db.benches id = .ok (some b) →
      db.exposure id t = .ok e →
      BatchRows db t ids rows → BatchRows db t (id :: ids) ((id, e) :: rows)

theorem get_bench_status_batch_ok {db : Db} (t : Nat) (hnf : NoFailDb db) :
    ∀ ids : List Int, ∃ rows,
      get_bench_status_batch db t ids = .ok rows ∧ BatchRows db t ids rows := by
  intro ids
  induction ids with
  | nil => exact ⟨[], rfl, BatchRows.nil⟩
  | cons id rest ih =>
    obtain ⟨rows, hrows, hrel⟩ := ih
    obtain ⟨b?, hb⟩ := hnf.1 id
    cases b? with
    | none =>
      refine ⟨rows, ?_, BatchRows.skip hb hrel⟩
      simp only [get_bench_status_batch, hb]
      exact hrows
    | some b =>
      obtain ⟨e, he⟩ := hnf.2 id t
      refine ⟨(id, e) :: rows, ?_, BatchRows.cons hb he hrel⟩
      simp only [get_bench_status_batch, hb, he, hrows]
      rfl

theorem BatchRows.row_mem_facts {db : Db} {t : Nat} :
    ∀ {ids rows}, BatchRows db t ids rows →
      ∀ {k : Int} {e : Option Bool}, (k, e) ∈ rows →
        db.exposure k t = .ok e ∧ ∃ b, db.benches k = .ok (some b) := by
  intro ids rows h
  induction h with
  | nil => intro k e hk; cases hk
  | skip _ _ ih => exact ih
  | cons hb he _ ih =>
    intro k e hk
    rcases List.mem_cons.mp hk with hk' | hk'
    · cases hk'
      exact ⟨he, _, hb⟩
    · exact ih hk'

theorem BatchRows.mem_rows_of_mem_ids {db : Db} {t : Nat} :
    ∀ {ids rows}, BatchRows db t ids rows →
      ∀ {k : Int} {b : Bench} {e : Option Bool}, k ∈ ids →
        db.benches k = .ok (some b) → db.exposure k t = .ok e →
        (k, e) ∈ rows := by
  intro ids rows h
  induction h with
  | nil => intro k b e hk; cases hk
  | skip hb _ ih =>
    intro k b e hk hbk hek
    rcases List.mem_cons.mp hk with rfl | hk'
    · rw [hb] at hbk; cases hbk
    · exact ih hk' hbk hek
  | cons hb he _ ih =>
    intro k b e hk hbk hek
    rcases List.mem_cons.mp hk with rfl | hk'
    · rw [hb] at hbk
      cases hbk
      rw [he] at hek
      cases hek
      exact List.mem_cons_self _ _
    · exact List.mem_cons_of_mem _ (ih hk' hbk hek)

theorem single_unknown_of_exposure_none {db : Db} {now : Nat} {id : Int}
    {skip : Bool} (he : db.exposure id (round_to_hour now) = .ok none) :
    get_bench_sun_status db now id skip = unknownResult := by
  unfold get_bench_sun_status get_bench_sun_status_attempt
    get_bench_sun_status_attempt_at
  cases hb : db.benches id with
  | error e => rfl
  | ok b? =>
    cases b? with
    | none => rfl
    | some bench =>
      simp only [he]
      rfl

theorem single_unknown_of_bench_missing {db : Db} {now : Nat} {id : Int}
    {skip : Bool} (hb : db.benches id = .ok none ∨ ∃ e, db.benches id = .error e) :
    get_bench_sun_status db now id skip = unknownResult := by
  unfold get_bench_sun_status get_bench_sun_status_attempt
    get_bench_sun_status_attempt_at
  rcases hb with hb | ⟨e, hb⟩ <;> rw [hb] <;> rfl

theorem next_change_gt_now {db : Db} {now : Nat} {id : Int} {lat lon : Int}
    {eff : Bool} {nc : Nat}
    (h : get_next_sun_change_with_weather db now id lat lon (round_to_hour now)
        eff = .ok (some nc)) :
    now < nc := by
  unfold get_next_sun_change_with_weather at h
  rcases scanTicks_result_mem h with hm | hm
  · have h1 := start_le_of_mem_hourlyTicks hm
    have h2 := round_to_hour_mul_self now
    have h3 := lt_round_to_hour_add now
    omega
  · cases hm

theorem single_eval_exposed {db : Db} {now : Nat} {id : Int} {bench : Bench}
    {b : Bool} {nc? : Option Nat} {skip : Bool}
    (hb : db.benches id = .ok (some bench))
    (he : db.exposure id (round_to_hour now) = .ok (some b))
    (hnc : get_next_sun_change_with_weather db now id bench.lat bench.lon
        (round_to_hour now)
        (is_sunny_at_time db now bench.lat bench.lon (round_to_hour now)
          == some true && b) = .ok nc?) :
    get_bench_sun_status db now id skip =
      (let effective_status :=
        if is_sunny_at_time db now bench.lat bench.lon (round_to_hour now)
            == some true && b then "sunny" else "shady"
      match nc? with
      | none => (effective_status, none, none)
      | some nc =>
        let remaining_minutes := Int.tdiv ((nc : Int) - (now : Int)) 60
        if remaining_minutes < 0 then (effective_status, some nc, none)
        else (effective_status, some nc, some remaining_minutes)) := by
  unfold get_bench_sun_status get_bench_sun_status_attempt
    get_bench_sun_status_attempt_at
  rw [hb]
  cases nc? with
  | none =>
    simp only [except_ok_bind, he, hnc]
    rfl
  | some nc =>
    simp only [except_ok_bind, he, hnc]
    by_cases hr : Int.tdiv ((nc : Int) - (now : Int)) 60 < 0
    · simp only [hr, if_true]
      rfl
    · simp only [hr, if_false]
      rfl

theorem next_change_ok {db : Db} (now : Nat) (id : Int) (lat lon : Int)
    (ct : Nat) (eff : Bool)
    (hex : ∀ i t, ∃ v, db.exposure i t = .ok v) :
    ∃ v, get_next_sun_change_with_weather db now id lat lon ct eff = .ok v := by
  unfold get_next_sun_change_with_weather
  exact scanTicks_ok now id lat lon (!eff) hex _ _

theorem batch_rows_loop_spec {db : Db} {now : Nat} (hnf : NoFailDb db) :
    ∀ {ids rows}, BatchRows db (round_to_hour now) ids rows →
      ∀ acc, ∃ res,
        batch_rows_loop db now (round_to_hour now) rows acc = .ok res ∧
        ∀ k, dictGet res k =
          if rows.any (fun p => p.1 == k) then
            some (get_bench_sun_status db now k false)
          else dictGet acc k := by
  intro ids rows h
  induction h with
  | nil =>
    intro acc
    exact ⟨acc, rfl, fun k => by simp [batch_rows_loop]⟩
  | skip _ _ ih => exact ih
  | @cons id ids' rows' bench e hb he hrel ih =>
    intro acc
    cases e with
    | none =>
      obtain ⟨res, hres, hspec⟩ := ih (dictSet acc id unknownResult)
      refine ⟨res, ?_, ?_⟩
      · simp only [batch_rows_loop]
        exact hres
      · intro k
        rw [hspec k]
        by_cases hany : rows'.any (fun p => p.1 == k) = true
        · simp [List.any_cons, hany]
        · have hanyf : rows'.any (fun p => p.1 == k) = false :=
            Bool.eq_false_iff.mpr hany
          by_cases hk : k = id
          · subst hk
            have hsu : get_bench_sun_status db now k false = unknownResult :=
              @single_unknown_of_exposure_none db now k false he
            simp [hanyf, List.any_cons, dictGet_dictSet_self, hsu]
          · have hkid : ((id : Int) == k) = false :=
              beq_eq_false_iff_ne.mpr fun h => hk h.symm
            simp [hanyf, List.any_cons, hkid, dictGet_dictSet_ne acc _ hk]
    | some bval =>
      obtain ⟨nc?, hnc⟩ := next_change_ok now id bench.lat bench.lon
        (round_to_hour now)
        (is_sunny_at_time db now bench.lat bench.lon (round_to_hour now)
          == some true && bval) hnf.2
      have hsingle := @single_eval_exposed db now id bench bval nc? false hb he hnc
      cases nc? with
      | none =>
        obtain ⟨res, hres, hspec⟩ := ih (dictSet acc id
          ((if is_sunny_at_time db now bench.lat bench.lon (round_to_hour now)
              == some true && bval then "sunny" else "shady"), none, none))
        refine ⟨res, ?_, ?_⟩
        · simp only [batch_rows_loop, hb, except_bind_ok, hnc]
          exact hres
        · intro k
          rw [hspec k]
          by_cases hany : rows'.any (fun p => p.1 == k) = true
          · simp [List.any_cons, hany]
          · have hanyf : rows'.any (fun p => p.1 == k) = false :=
              Bool.eq_false_iff.mpr hany
            by_cases hk : k = id
            · subst hk
              simp [hanyf, List.any_cons, dictGet_dictSet_self, hsingle]
            · have hkid : ((id : Int) == k) = false :=
                beq_eq_false_iff_ne.mpr fun h => hk h.symm
              simp [hanyf, List.any_cons, hkid, dictGet_dictSet_ne acc _ hk]
      | some nc =>
        have hpos : now < nc := next_change_gt_now hnc
        have hr : ¬ Int.tdiv ((nc : Int) - (now : Int)) 60 < 0 := by
          have h0 : (0 : Int) ≤ (nc : Int) - (now : Int) := by
            omega
          have := Int.tdiv_nonneg h0 (by omega : (0 : Int) ≤ 60)
          omega
        obtain ⟨res, hres, hspec⟩ := ih (dictSet acc id
          ((if is_sunny_at_time db now bench.lat bench.lon (round_to_hour now)
              == some true && bval then "sunny" else "shady"),
            some nc, some (Int.tdiv ((nc : Int) - (now : Int)) 60)))
        refine ⟨res, ?_, ?_⟩
        · simp only [batch_rows_loop, hb, except_bind_ok, hnc]
          exact hres
        · intro k
          rw [hspec k]
          by_cases hany : rows'.any (fun p => p.1 == k) = true
          · simp [List.any_cons, hany]
          · have hanyf : rows'.any (fun p => p.1 == k) = false :=
              Bool.eq_false_iff.mpr hany
            by_cases hk : k = id
            · subst hk
              simp [hanyf, List.any_cons, dictGet_dictSet_self, hsingle, hr]
            · have hkid : ((id : Int) == k) = false :=
                beq_eq_false_iff_ne.mpr fun h => hk h.symm
              simp [hanyf, List.any_cons, hkid, dictGet_dictSet_ne acc _ hk]

theorem is_sunny_eq_some_true_iff (db : Db) (now : Nat) (lat lon : Int)
    (tick : Nat) (g : Bool) :
    (is_sunny_at_time db now lat lon tick == some true && g) = true ↔
      (g = true ∧ ∃ c, get_cloud_cover_at_time db now lat lon tick = some c ∧
        c < CLOUD_COVER_THRESHOLD) := by
  unfold is_sunny_at_time
  cases hc : get_cloud_cover_at_time db now lat lon tick with
  | none => simp
  | some c =>
    by_cases hlt : c < CLOUD_COVER_THRESHOLD
    · simp [hlt, And.comm]
    · simp [hlt]

theorem single_status_eq (db : Db) (now : Nat) (id : Int) (bench : Bench)
    (g : Bool) (skip : Bool) (hnf : NoFailDb db)
    (hb : db.benches id = .ok (some bench))
    (hg : db.exposure id (round_to_hour now) = .ok (some g)) :
    (get_bench_sun_status db now id skip).1 =
      (if is_sunny_at_time db now bench.lat bench.lon (round_to_hour now)
          == some true && g then "sunny" else "shady") := by
  obtain ⟨nc?, hnc⟩ := next_change_ok now id bench.lat bench.lon
    (round_to_hour now)
    (is_sunny_at_time db now bench.lat bench.lon (round_to_hour now)
      == some true && g) hnf.2
  rw [@single_eval_exposed db now id bench g nc? skip hb hg hnc]
  cases nc? with
  | none => rfl
  | some nc =>
    by_cases hr : Int.tdiv ((nc : Int) - (now : Int)) 60 < 0 <;>
      simp [hr]

/-- C1: for a site present in the catalog whose geometric exposure has an
entry at the query tick, resolve returns "sunny" exactly when that
exposure is true and the cached region cloud cover at that tick is
strictly below the 20% threshold; in every other case (exposure false,
cloud cover at or above the threshold, or weather data absent) it returns
"shady". -/
theorem C1_sunny_iff_exposed_and_clear (db : Db) (now : Nat) (id : Int)
    (bench : Bench) (g : Bool) (skip : Bool) (hnf : NoFailDb db)
    (hb : db.benches id = .ok (some bench))
    (hg : db.exposure id (round_to_hour now) = .ok (some g)) :
    ((get_bench_sun_status db now id skip).1 = "sunny" ↔
      (g = true ∧ ∃ c, get_cloud_cover_at_time db now bench.lat bench.lon
        (round_to_hour now) = some c ∧ c < CLOUD_COVER_THRESHOLD)) ∧
    ((get_bench_sun_status db now id skip).1 = "shady" ↔
      ¬(g = true ∧ ∃ c, get_cloud_cover_at_time db now bench.lat bench.lon
        (round_to_hour now) = some c ∧ c < CLOUD_COVER_THRESHOLD)) := by
  have hstat := single_status_eq db now id bench g skip hnf hb hg
  have hkey := is_sunny_eq_some_true_iff db now bench.lat bench.lon
    (round_to_hour now) g
  constructor
  · rw [hstat]
    constructor
    · intro hs
      apply hkey.mp
      by_contra hw
      rw [if_neg hw] at hs
      exact absurd hs (by decide)
    · intro hr
      rw [if_pos (hkey.mpr hr)]
  · rw [hstat]
    constructor
    · intro hs hr
      rw [if_pos (hkey.mpr hr)] at hs
      exact absurd hs (by decide)
    · intro hr
      rw [if_neg (fun hw => hr (hkey.mp hw))]

/-- The concrete store used by several witnesses: bench 1 at (47, 15)
degrees, exposed exactly at the tick 1800000000 (an exact hour), with a
5% cloud-cover forecast row for its region at that hour. -/
def benchW : Bench := { lat := 47000000, lon := 15000000 }

def dbW : Db where
  benches := fun i => .ok (if i = 1 then some benchW else none)
  exposure := fun i t => .ok (if i = 1 ∧ t = 1800000000 then some true else none)
  weather_cache := .ok [{ region_id := (470, 150), forecast_time := 1800000000,
                           cloud_cover_percent := some 5, fetched_at := 0 }]

theorem C1_witness :
    (get_bench_sun_status dbW 1800000000 1 false).1 = "sunny" ↔
      (true = true ∧ ∃ c, get_cloud_cover_at_time dbW 1800000000 benchW.lat
        benchW.lon (round_to_hour 1800000000) = some c ∧
        c < CLOUD_COVER_THRESHOLD) :=
  (C1_sunny_iff_exposed_and_clear dbW 1800000000 1 benchW true false
    ⟨fun i => ⟨_, rfl⟩, fun i t => ⟨_, rfl⟩⟩ rfl rfl).1

/-- C2: whenever the geometric exposure store has no entry for the site at
the query tick, resolve returns ("unknown", no change time, no remaining
minutes), whatever the bench catalog and forecast state hold. -/
theorem C2_unknown_of_no_exposure (db : Db) (now : Nat) (id : Int)
    (skip : Bool) (hg : db.exposure id (round_to_hour now) = .ok none) :
    get_bench_sun_status db now id skip = ("unknown", none, none) :=
  single_unknown_of_exposure_none hg

theorem C2_witness :
    get_bench_sun_status dbW 1800000000 2 false = ("unknown", none, none) :=
  C2_unknown_of_no_exposure dbW 1800000000 2 false rfl

/-- C4: with a store whose lookups yield data (or no-data) rather than
failing, the batch resolver assigns every requested id exactly the triple
that the single-site resolver computes for that id at the same query
time. -/
theorem C4_batch_matches_single (db : Db) (now : Nat) (bench_ids : List Int)
    (skip : Bool) (id : Int) (hnf : NoFailDb db) (hmem : id ∈ bench_ids) :
    dictGet (get_bench_sun_status_batch db now bench_ids skip) id =
      some (get_bench_sun_status db now id skip) := by
  obtain ⟨rows, hrows, hrel⟩ :=
    get_bench_status_batch_ok (round_to_hour now) hnf bench_ids
  obtain ⟨res, hres, hspec⟩ := batch_rows_loop_spec hnf hrel []
  have hattempt : get_bench_sun_status_batch_attempt db now bench_ids =
      .ok (batch_fill_missing bench_ids res) := by
    unfold get_bench_sun_status_batch_attempt
    simp only [hrows, except_ok_bind, hres]
    rfl
  unfold get_bench_sun_status_batch
  rw [hattempt]
  rw [dictGet_fill, hspec id]
  by_cases hany : rows.any (fun p => p.1 == id) = true
  · simp only [hany, if_true]
    rfl
  · have hanyf := Bool.eq_false_iff.mpr hany
    simp only [hanyf, if_false]
    obtain ⟨b?, hb⟩ := hnf.1 id
    cases b? with
    | none =>
      have hsu := @single_unknown_of_bench_missing db now id skip (Or.inl hb)
      simp [dictGet, hmem, hsu, unknownResult]
    | some bench =>
      obtain ⟨e, heid⟩ := hnf.2 id (round_to_hour now)
      exfalso
      apply hany
      simp only [List.any_eq_true]
      exact ⟨(id, e), hrel.mem_rows_of_mem_ids hmem hb heid, by simp⟩

theorem C4_witness :
    dictGet (get_bench_sun_status_batch dbW 1800000000 [1, 2] false) 1 =
      some (get_bench_sun_status dbW 1800000000 1 false) :=
  C4_batch_matches_single dbW 1800000000 [1, 2] false 1
    ⟨fun i => ⟨_, rfl⟩, fun i t => ⟨_, rfl⟩⟩ (by decide)

/-- Store for the C3 counterexample: geometric exposure present (true) at
every tick; the only forecast row sits two hours ahead with 50% cloud
cover, so weather data is missing at the first scanned tick but a
confirmed not-sunny tick exists within the horizon. -/
def dbC3 : Db where
  benches := fun _ => .ok none
  exposure := fun _ _ => .ok (some true)
  weather_cache := .ok [{ region_id := (470, 150), forecast_time := 1800007200,
                           cloud_cover_percent := some 50, fetched_at := 0 }]

/-- C3 counterexample: starting from effectively-sunny, the scan returns
the very first tick (1800003600) immediately even though weather data is
missing there, despite a confirmed flip (50% cloud, geometric data
present) existing one hour later inside the 48h horizon — contradicting
"a tick at which weather data is missing is never returned immediately". -/
theorem C3_counterexample :
    get_next_sun_change_with_weather dbC3 1800000000 1 47000000 15000000
        1800000000 true = .ok (some 1800003600) ∧
    is_sunny_at_time dbC3 1800000000 47000000 15000000 1800003600 = none ∧
    dbC3.exposure 1 1800003600 = .ok (some true) ∧
    is_sunny_at_time dbC3 1800000000 47000000 15000000 1800007200 = some false ∧
    dbC3.exposure 1 1800007200 = .ok (some true) ∧
    1800007200 < 1800000000 + 48 * 3600 :=
  ⟨rfl, rfl, rfl, rfl, rfl, by decide⟩

/-- C3 (amended): `get_next_sun_change_with_weather` is the scan of the
hourly ticks between the hour after the (hour-floored) start time and the
48-hour horizon, with these step behaviours: (a) a tick with absent
geometric data is skipped without terminating the scan; (b) exhausting
the horizon returns the first recorded candidate, or no change time when
none was recorded; (c) when the current status is sunny (scanning toward
shady), a tick with geometric data present and missing weather is
returned immediately as the change; (d) when the current status is shady
(scanning toward sunny), a missing-weather tick with exposure true is
passed over silently, and (e) one with exposure false is recorded as a
low-confidence candidate only. -/
theorem C3_amended_scan_behaviour (db : Db) (now : Nat) (bench_id : Int)
    (lat lon : Int) (target_status : Bool) (check : Nat)
    (rest cands : List Nat) :
    (∀ current_time current_is_sunny,
      get_next_sun_change_with_weather db now bench_id lat lon current_time
          current_is_sunny =
        scanTicks db now bench_id lat lon (!current_is_sunny)
          (hourlyTicks (current_time / 3600 * 3600 + 3600) (now + 48 * 3600))
          []) ∧
    (db.exposure bench_id check = .ok none →
      scanTicks db now bench_id lat lon target_status (check :: rest) cands =
        scanTicks db now bench_id lat lon target_status rest cands) ∧
    (scanTicks db now bench_id lat lon target_status [] cands =
      .ok cands.head?) ∧
    (∀ b : Bool, target_status = false →
      db.exposure bench_id check = .ok (some b) →
      is_sunny_at_time db now lat lon check = none →
      scanTicks db now bench_id lat lon target_status (check :: rest) cands =
        .ok (some check)) ∧
    (target_status = true → db.exposure bench_id check = .ok (some true) →
      is_sunny_at_time db now lat lon check = none →
      scanTicks db now bench_id lat lon target_status (check :: rest) cands =
        scanTicks db now bench_id lat lon target_status rest cands) ∧
    (target_status = true → db.exposure bench_id check = .ok (some false) →
      is_sunny_at_time db now lat lon check = none →
      scanTicks db now bench_id lat lon target_status (check :: rest) cands =
        scanTicks db now bench_id lat lon target_status rest
          (cands ++ [check])) := by
  refine ⟨fun ct ci => rfl, fun he => scanTicks_cons_skip he,
    scanTicks_nil db now bench_id lat lon target_status cands, ?_, ?_, ?_⟩
  · intro b htgt he hw
    subst htgt
    rw [scanTicks_cons_exposed he]
    simp [hw]
  · intro htgt he hw
    subst htgt
    rw [scanTicks_cons_exposed he]
    simp [hw]
  · intro htgt he hw
    subst htgt
    rw [scanTicks_cons_exposed he]
    simp [hw]

theorem C3_amended_witness :
    scanTicks dbC3 1800000000 1 47000000 15000000 false [1800003600] [] =
      .ok (some 1800003600) :=
  ((C3_amended_scan_behaviour dbC3 1800000000 1 47000000 15000000 false
      1800003600 [] []).2.2.2.1) true rfl rfl rfl

/-- The not-sunny snapshot cached in the Sunshine Gate for the C5
evaluation. -/
def gateNotSunny : WeatherStatus :=
  { is_sunny := false, sunshine_seconds := 0, station_id := "11290",
    station_name := "Graz Universitaet", timestamp := 1800000000,
    cached_at := some 1800000000, message := "cloudy" }

def gateStateC5 : GateCache :=
  { weather_cache := some gateNotSunny, cache_time := some 1800000000 }

/-- C5 (code evaluation at the failing input): the Sunshine Gate
(`weather.is_sunny`, imported as `check_weather_sunny`) reports not-sunny
from its freshly cached snapshot, `skip_weather_check` is false, bench 1
is geometrically exposed and its region's cloud cover is 5% — yet resolve
reports "sunny": the gate short-circuit documented for
`skip_weather_check=false` does not exist in the resolver (the flag and
the imported gate helper are never used in its body). -/
theorem C5_gate_ignored_eval :
    is_sunny_gate gateStateC5 1800000000 600 (.error ()) = false ∧
    (get_bench_sun_status dbW 1800000000 1 false).1 = "sunny" :=
  ⟨rfl, rfl⟩

/-- Store for the C6 counterexample: bench 1 is exposed exactly at the
10-minute-floor tick of the query time 1800002700 (12:45-style instant:
45 min past the hour), with sunny weather cached for that hour; no entry
exists at the nearest-hour tick. -/
def dbC6 : Db where
  benches := fun i => .ok (if i = 1 then some benchW else none)
  exposure := fun i t =>
    .ok (if i = 1 ∧ t = round_to_10min 1800002700 then some true else none)
  weather_cache := .ok [{ region_id := (470, 150), forecast_time := 1800000000,
                           cloud_cover_percent := some 5, fetched_at := 0 }]

/-- C6 counterexample: at a query time 45 minutes past the hour, the
exposure store has a (true) entry at the 10-minute-floor tick and sunny
weather there, yet resolve answers "unknown" — so the lookup tick cannot
be the 10-minute floor of the query time (the code uses `round_to_hour`,
which lands on the next hour, where no entry exists). -/
theorem C6_counterexample :
    dbC6.exposure 1 (round_to_10min 1800002700) = .ok (some true) ∧
    is_sunny_at_time dbC6 1800002700 benchW.lat benchW.lon
      (round_to_10min 1800002700) = some true ∧
    get_bench_sun_status dbC6 1800002700 1 false = ("unknown", none, none) :=
  ⟨rfl, rfl, rfl⟩

/-- C6 (amended): resolve computes the geometric-exposure lookup tick by
rounding `now` to the NEAREST hour — up at ≥ 30 minutes past the hour,
i.e. tick = ((now + 1800) / 3600) * 3600 — not by flooring to the
10-minute grid. -/
theorem C6_amended_tick_is_nearest_hour (db : Db) (now : Nat) (id : Int)
    (skip : Bool) :
    get_bench_sun_status db now id skip =
      get_bench_sun_status_at_tick db ((now + 1800) / 3600 * 3600) now id
        skip := by
  unfold get_bench_sun_status get_bench_sun_status_attempt
    get_bench_sun_status_at_tick
  rw [← round_to_hour_eq_floor_shifted]

/-- C7: Sunshine Gate cache behaviour: (i) without force-refresh, a valid
cache returns the cached snapshot with cache_hit=true and leaves the
state unchanged; (ii) with an invalid cache and a failing fetch, a
previous snapshot is returned with cache_hit=true instead of an error;
(iii) a failing fetch with no previous snapshot propagates the error. -/
theorem C7_gate_cache_behaviour (s : GateCache) (now ttl : Nat)
    (fetch : Except Unit WeatherStatus) (force : Bool) (w : WeatherStatus)
    (e : Unit) :
    (is_cache_valid_gate s now ttl = true → s.weather_cache = some w →
      get_current_weather s now ttl fetch false = (.ok (w, true), s)) ∧
    (is_cache_valid_gate s now ttl = false → s.weather_cache = some w →
      get_current_weather s now ttl (.error e) force = (.ok (w, true), s)) ∧
    (s.weather_cache = none →
      (get_current_weather s now ttl (.error e) force).1 = .error e) := by
  refine ⟨?_, ?_, ?_⟩
  · intro hv hw
    unfold get_current_weather
    simp only [hv, Bool.not_false, Bool.and_self, if_true, hw]
  · intro hv hw
    unfold get_current_weather
    simp [hv, hw]
  · intro hw
    unfold get_current_weather
    have hv : is_cache_valid_gate s now ttl = false := by
      unfold is_cache_valid_gate
      rw [hw]
    simp [hv, hw]

theorem C7_witness :
    get_current_weather gateStateC5 1800000000 600 (.error ()) false =
      (.ok (gateNotSunny, true), gateStateC5) :=
  (C7_gate_cache_behaviour gateStateC5 1800000000 600 (.error ()) false
    gateNotSunny ()).1 (by decide) rfl

/-- Store for the C8 counterexample: bench 1 resolves normally (sunny);
looking up bench 2 in the catalog raises a storage error. -/
def dbC8 : Db where
  benches := fun i => if i = 1 then .ok (some benchW) else .error ()
  exposure := fun _ _ => .ok (some true)
  weather_cache := .ok [{ region_id := (470, 150), forecast_time := 1800000000,
                           cloud_cover_percent := some 5, fetched_at := 0 }]

/-- C8 counterexample: on its own, site 1 resolves to "sunny"; in a batch
with site 2, whose catalog lookup fails, site 1's entry is degraded to
("unknown", none, none) as well — the failure is not isolated to the
affected site. -/
theorem C8_counterexample :
    (get_bench_sun_status dbC8 1800000000 1 false).1 = "sunny" ∧
    dictGet (get_bench_sun_status_batch dbC8 1800000000 [1, 2] false) 1 =
      some ("unknown", none, none) :=
  ⟨rfl, rfl⟩

/-- C8 (amended): a lookup failure anywhere during the batch degrades
EVERY requested site's result to unknown (the single `except` handler
re-assigns all ids); the batch is not aborted — it still returns an
entry for every requested id. -/
theorem C8_amended_failure_degrades_whole_batch (db : Db) (now : Nat)
    (bench_ids : List Int) (skip : Bool) (e : Unit) (id : Int)
    (hfail : get_bench_sun_status_batch_attempt db now bench_ids = .error e)
    (hmem : id ∈ bench_ids) :
    dictGet (get_bench_sun_status_batch db now bench_ids skip) id =
      some ("unknown", none, none) := by
  unfold get_bench_sun_status_batch
  rw [hfail, dictGet_foldl_unknown]
  simp [hmem, unknownResult]

theorem C8_amended_witness :
    dictGet (get_bench_sun_status_batch dbC8 1800000000 [1, 2] false) 2 =
      some ("unknown", none, none) :=
  C8_amended_failure_degrades_whole_batch dbC8 1800000000 [1, 2] false () 2
    rfl (by decide)

/-- C9: once the Sunshine Gate cache holds a snapshot, no
`get_current_weather` call — any force_refresh value, fetch success or
fetch failure — leaves it empty. -/
theorem C9_cache_never_emptied (s : GateCache) (now ttl : Nat)
    (fetch : Except Unit WeatherStatus) (force : Bool)
    (h : s.weather_cache.isSome = true) :
    ((get_current_weather s now ttl fetch force).2).weather_cache.isSome =
      true := by
  unfold get_current_weather
  by_cases hc : (!force && is_cache_valid_gate s now ttl) = true
  · rw [if_pos hc]
    cases hw : s.weather_cache with
    | some w => exact h
    | none => rw [hw] at h; cases h
  · rw [if_neg hc]
    cases fetch with
    | ok st => rfl
    | error e =>
      cases hw : s.weather_cache with
      | some w => exact h
      | none => rw [hw] at h; cases h

theorem C9_witness :
    ((get_current_weather gateStateC5 1800000000 600 (.error ())
        true).2).weather_cache.isSome = true :=
  C9_cache_never_emptied gateStateC5 1800000000 600 (.error ()) true rfl

theorem latestFetched_eq_none_iff (l : List WeatherRow) :
    latestFetched l = none ↔ l = [] := by
  cases l with
  | nil => simp [latestFetched]
  | cons r rs =>
    cases hrs : latestFetched rs with
    | none =>
      simp only [latestFetched, hrs]
      simp
    | some m =>
      simp only [latestFetched, hrs]
      constructor
      · intro h
        split at h <;> cases h
      · intro h
        cases h

theorem latestFetched_mem : ∀ {l : List WeatherRow} {m : WeatherRow},
    latestFetched l = some m → m ∈ l := by
  intro l
  induction l with
  | nil => intro m h; cases h
  | cons r rs ih =>
    intro m h
    cases hrs : latestFetched rs with
    | none =>
      simp only [latestFetched, hrs] at h
      cases h
      exact List.mem_cons_self _ _
    | some m' =>
      simp only [latestFetched, hrs] at h
      split at h
      · cases h
        exact List.mem_cons_self _ _
      · cases h
        exact List.mem_cons_of_mem _ (ih hrs)

theorem latestFetched_max : ∀ {l : List WeatherRow} {m : WeatherRow},
    latestFetched l = some m → ∀ x ∈ l, x.fetched_at ≤ m.fetched_at := by
  intro l
  induction l with
  | nil => intro m h; cases h
  | cons r rs ih =>
    intro m h x hx
    cases hrs : latestFetched rs with
    | none =>
      simp only [latestFetched, hrs] at h
      cases h
      have hnil : rs = [] := (latestFetched_eq_none_iff rs).mp hrs
      rcases List.mem_cons.mp hx with rfl | hx'
      · exact Nat.le_refl _
      · rw [hnil] at hx'
        cases hx'
    | some m' =>
      simp only [latestFetched, hrs] at h
      rcases List.mem_cons.mp hx with rfl | hx'
      · split at h
        · cases h
          exact Nat.le_refl _
        · cases h
          rename_i hnlt
          omega
      · have hx'' := ih hrs x hx'
        split at h
        · cases h
          rename_i hlt
          omega
        · cases h
          exact hx''

/-- Store for the C10 counterexample: the weather table read succeeds and
holds exactly one row for the key ((470, 150), hour 1800000000), but that
row's cloud cover is NULL, as `_parse_forecast`/`_store_forecast_in_db`
can produce when the provider's `cloudcover` array is short. -/
def dbC10 : Db where
  benches := fun _ => .ok none
  exposure := fun _ _ => .ok none
  weather_cache := .ok [{ region_id := (470, 150),
                          forecast_time := 1800000000,
                          cloud_cover_percent := none, fetched_at := 0 }]

/-- The NULL-cloud-cover row stored in `dbC10`. -/
def rowC10 : WeatherRow :=
  { region_id := (470, 150), forecast_time := 1800000000,
    cloud_cover_percent := none, fetched_at := 0 }

/-- C10 counterexample: an entry exists for the queried (region, hour)
key — the table read succeeds and the key's match list is non-empty — yet
`get_cloud_cover_at_time` returns no-data, because the stored
`cloud_cover_percent` is NULL; this falsifies "it returns no-data only
when no entry exists at all for that key". -/
theorem C10_counterexample :
    get_cloud_cover_at_time dbC10 0 47000000 15000000 1800000000 = none ∧
    dbC10.weather_cache = .ok [rowC10] ∧
    weather_matches [rowC10] (get_region_id 47000000 15000000)
      (1800000000 / 3600 * 3600) ≠ [] :=
  ⟨rfl, rfl, by decide⟩

/-- C10 (amended): the forecast point lookup applies no TTL or freshness
condition on read: its result does not depend on the query instant `now`
(the computed cache-validity flag is ignored), and the most recently
fetched matching row's stored value is returned however old its
`fetched_at` may be.  It returns no-data when no row exists for the
(region, hour) key — but also when the latest matching row's stored
cloud cover is NULL, and when the storage read itself fails (the
function's own `except` handler returns `None`). -/
theorem C10_read_ignores_freshness (db : Db) (lat lon : Int)
    (target now now' : Nat) :
    (get_cloud_cover_at_time db now lat lon target =
      get_cloud_cover_at_time db now' lat lon target) ∧
    (∀ e, db.weather_cache = .error e →
      get_cloud_cover_at_time db now lat lon target = none) ∧
    (∀ rows, db.weather_cache = .ok rows →
      ∀ r ∈ weather_matches rows (get_region_id lat lon)
          (target / 3600 * 3600),
        (∀ r' ∈ weather_matches rows (get_region_id lat lon)
            (target / 3600 * 3600), r' ≠ r → r'.fetched_at < r.fetched_at) →
        get_cloud_cover_at_time db now lat lon target =
          r.cloud_cover_percent) ∧
    (∀ rows, db.weather_cache = .ok rows →
      weather_matches rows (get_region_id lat lon)
          (target / 3600 * 3600) = [] →
      get_cloud_cover_at_time db now lat lon target = none) := by
  refine ⟨rfl, ?_, ?_, ?_⟩
  · intro e he
    unfold get_cloud_cover_at_time
    rw [he]
  · intro rows hrows r hr hmax
    have hred : get_cloud_cover_at_time db now lat lon target =
        (match latestFetched (weather_matches rows (get_region_id lat lon)
            (target / 3600 * 3600)) with
         | some row => row.cloud_cover_percent
         | none => none) := by
      unfold get_cloud_cover_at_time
      rw [hrows]
    rw [hred]
    cases hm : latestFetched (weather_matches rows (get_region_id lat lon)
        (target / 3600 * 3600)) with
    | none =>
      have := (latestFetched_eq_none_iff _).mp hm
      rw [this] at hr
      cases hr
    | some row =>
      have hrowmem := latestFetched_mem hm
      by_cases heq : row = r
      · subst heq
        rfl
      · exfalso
        have h1 : row.fetched_at < r.fetched_at := hmax row hrowmem heq
        have h2 : r.fetched_at ≤ row.fetched_at := latestFetched_max hm r hr
        omega
  · intro rows hrows hnil
    have hred : get_cloud_cover_at_time db now lat lon target =
        (match latestFetched (weather_matches rows (get_region_id lat lon)
            (target / 3600 * 3600)) with
         | some row => row.cloud_cover_percent
         | none => none) := by
      unfold get_cloud_cover_at_time
      rw [hrows]
    rw [hred, hnil]
    rfl

theorem C10_witness :
    get_cloud_cover_at_time dbW 5 47000000 15000000 1800000000 = some 5 :=
  (C10_read_ignores_freshness dbW 47000000 15000000 1800000000 5
      99).2.2.1
    [{ region_id := (470, 150), forecast_time := 1800000000,
       cloud_cover_percent := some 5, fetched_at := 0 }] rfl
    { region_id := (470, 150), forecast_time := 1800000000,
      cloud_cover_percent := some 5, fetched_at := 0 }
    (by decide) (by decide)
